import Mathlib

/-!
Verification of the FindMyHelper server (src/server) against its
natural-language specification.

The TypeScript code is shallowly embedded: each entity table of the storage
layer (src/server/storage.ts) becomes a Lean structure, the in-memory maps
become association lists with JavaScript `Map.set` semantics, and each route
handler of src/server/db.ts and src/server/auth.ts becomes a pure function
from a storage state and a request to a new state, an HTTP response and the
list of notification emails handed to the SMTP transport.

Conventions of the embedding:
- JavaScript numbers are modelled as `Rat` (money, ratings) or `Nat` (ids);
  `Date` values as `Nat` timestamps supplied by the caller as `now`.
- `null`/`undefined` become `Option`; the JavaScript truthiness coercion
  `x || null` on strings (empty string is falsy) is `orNullStr`, and on
  numbers (zero is falsy) `orNullNat`.
- The SMTP transport (`nodemailer`) is an external collaborator and is passed
  in as a function `Email -> Except String Unit`; `Except.error` models a
  rejected send.
- The development-only branches of MemStorage (`process.env.NODE_ENV ===
  'development'`, which promote the hard-coded admin account) are compiled
  out in production and are not part of the modelled behaviour.
-/

/-- A user record (`users` table / `MemStorage.users`). The `createdAt`
column is carried but never read by the routes under study. -/
structure User where
  id : Nat
  username : String
  email : String
  password : String
  firstName : String
  lastName : String
  isServiceProvider : Bool
  isAdmin : Bool
  profilePicture : Option String
  phoneNumber : Option String
  isEmailVerified : Bool
  emailVerificationToken : Option String
  firebaseUid : Option String
  createdAt : Nat
deriving Repr, DecidableEq

/-- A service category (`serviceCategories` table). -/
structure ServiceCategory where
  id : Nat
  name : String
  description : Option String
  icon : Option String
deriving Repr, DecidableEq

/-- A service provider record (`serviceProviders` table). `approvalStatus`
ranges over the strings "pending", "approved", "rejected", exactly as the
TypeScript code compares them. -/
structure ServiceProvider where
  id : Nat
  userId : Nat
  categoryId : Nat
  hourlyRate : Rat
  bio : Option String
  yearsOfExperience : Option Nat
  availability : Option String
  idVerificationImage : Option String
  isVerified : Bool
  approvalStatus : String
  adminNotes : Option String
  reviewedBy : Option Nat
  reviewedAt : Option Nat
  submittedAt : Option Nat
  rating : Rat
  completedJobs : Nat
deriving Repr, DecidableEq

/-- A service request (`serviceRequests` table); `status` ranges over the
strings of the request lifecycle ("pending", "accepted", ..., "completed"). -/
structure ServiceRequest where
  id : Nat
  clientId : Nat
  providerId : Nat
  taskId : Option Nat
  status : String
  message : Option String
  createdAt : Nat
deriving Repr, DecidableEq

/-- A review (`reviews` table). -/
structure Review where
  id : Nat
  serviceRequestId : Nat
  clientId : Nat
  providerId : Nat
  rating : Rat
  comment : Option String
  createdAt : Nat
deriving Repr, DecidableEq

/-- The storage state: the entity maps of `MemStorage` (equivalently the
tables of `DatabaseStorage`) together with the id counters. -/
structure Storage where
  users : List User
  serviceCategories : List ServiceCategory
  serviceProviders : List ServiceProvider
  serviceRequests : List ServiceRequest
  reviews : List Review
  currentUserId : Nat
  currentProviderId : Nat
  currentRequestId : Nat
  currentReviewId : Nat
deriving Repr, DecidableEq

/-- JavaScript `Map.prototype.set` on a map modelled as an insertion-ordered
association list: overwrite the entry whose key matches, otherwise append. -/
def setById {α : Type} (key : α → Nat) (l : List α) (id : Nat) (a : α) : List α :=
  if l.any (fun x => key x == id) then
    l.map (fun x => if key x == id then a else x)
  else
    l ++ [a]

/-- The JavaScript coercion `s || null` for a nullable string: `null`,
`undefined` and the empty string are all falsy. -/
def orNullStr (s : Option String) : Option String :=
  match s with
  | some t => if t = "" then none else some t
  | none => none

/-- The JavaScript coercion `n || null` for a nullable number: `null`,
`undefined` and `0` are all falsy. -/
def orNullNat (n : Option Nat) : Option Nat :=
  match n with
  | some m => if m = 0 then none else some m
  | none => none

/-- JavaScript truthiness of a nullable string (used in conditions such as
`validatedData.idVerificationImage ? "pending" : "approved"`). -/
def isTruthyStr (s : Option String) : Bool :=
  match s with
  | some t => t != ""
  | none => false

/-- Method `IStorage.getUser` (production behaviour; the development-only admin
promotion branch of MemStorage is compiled out). -/
def getUser (s : Storage) (id : Nat) : Option User :=
  s.users.find? (fun u => u.id == id)

/-- Method `IStorage.getUserByEmail` (production behaviour). -/
def getUserByEmail (s : Storage) (email : String) : Option User :=
  s.users.find? (fun u => u.email == email)

/-- Method `IStorage.getServiceCategory`. -/
def getServiceCategory (s : Storage) (id : Nat) : Option ServiceCategory :=
  s.serviceCategories.find? (fun c => c.id == id)

/-- Method `IStorage.getServiceProvider`. -/
def getServiceProvider (s : Storage) (id : Nat) : Option ServiceProvider :=
  s.serviceProviders.find? (fun p => p.id == id)

/-- Method `IStorage.getServiceProviderByUserId`. -/
def getServiceProviderByUserId (s : Storage) (userId : Nat) : Option ServiceProvider :=
  s.serviceProviders.find? (fun p => p.userId == userId)

/-- Method `IStorage.getServiceProviders`. -/
def getServiceProviders (s : Storage) : List ServiceProvider :=
  s.serviceProviders

/-- Method `IStorage.getServiceProvidersByCategory`. -/
def getServiceProvidersByCategory (s : Storage) (categoryId : Nat) : List ServiceProvider :=
  s.serviceProviders.filter (fun p => p.categoryId == categoryId)

/-- Method `IStorage.getPendingServiceProviders`. -/
def getPendingServiceProviders (s : Storage) : List ServiceProvider :=
  s.serviceProviders.filter (fun p => p.approvalStatus == "pending")

/-- Method `IStorage.getServiceRequest`. -/
def getServiceRequest (s : Storage) (id : Nat) : Option ServiceRequest :=
  s.serviceRequests.find? (fun r => r.id == id)

/-- Method `IStorage.getReviewsByProvider`. -/
def getReviewsByProvider (s : Storage) (providerId : Nat) : List Review :=
  s.reviews.filter (fun r => r.providerId == providerId)

/-- The payload the POST /api/providers route passes to
`storage.createServiceProvider` (the insert type of the provider table). -/
structure InsertServiceProvider where
  userId : Nat
  categoryId : Nat
  hourlyRate : Rat
  bio : Option String
  yearsOfExperience : Option Nat
  availability : Option String
  idVerificationImage : Option String
  isVerified : Bool
  approvalStatus : String
  submittedAt : Option Nat
deriving Repr, DecidableEq

/-- Method `MemStorage.createServiceProvider`: spread the insert payload, assign the
next id, zero the aggregates, apply the `|| null` defaults of bio, years and
availability, and override `approvalStatus` with `'pending'` (the source
comment reads: Always set to pending). Fields absent from the insert payload
(adminNotes, reviewedBy, reviewedAt) are undefined, i.e. `none`. -/
def MemStorage.createServiceProvider (s : Storage) (p : InsertServiceProvider) :
    Storage × ServiceProvider :=
  let id := s.currentProviderId
  let newProvider : ServiceProvider :=
    { id := id
      userId := p.userId
      categoryId := p.categoryId
      hourlyRate := p.hourlyRate
      bio := orNullStr p.bio
      yearsOfExperience := orNullNat p.yearsOfExperience
      availability := orNullStr p.availability
      idVerificationImage := p.idVerificationImage
      isVerified := p.isVerified
      approvalStatus := "pending"
      adminNotes := none
      reviewedBy := none
      reviewedAt := none
      submittedAt := p.submittedAt
      rating := 0
      completedJobs := 0 }
  ({ s with
      serviceProviders := setById (fun q => q.id) s.serviceProviders id newProvider
      currentProviderId := id + 1 },
    newProvider)

/-- Method `DatabaseStorage.createServiceProvider`: insert a row built from the
payload with `rating 0`, `completedJobs 0` and `approvalStatus 'pending'`
(same overriding comment as MemStorage); the review-metadata columns default
to NULL and the serial key allocates a fresh id, so the insert appends. -/
def DatabaseStorage.createServiceProvider (s : Storage) (p : InsertServiceProvider) :
    Storage × ServiceProvider :=
  let id := s.currentProviderId
  let newProvider : ServiceProvider :=
    { id := id
      userId := p.userId
      categoryId := p.categoryId
      hourlyRate := p.hourlyRate
      bio := p.bio
      yearsOfExperience := p.yearsOfExperience
      availability := p.availability
      idVerificationImage := p.idVerificationImage
      isVerified := p.isVerified
      approvalStatus := "pending"
      adminNotes := none
      reviewedBy := none
      reviewedAt := none
      submittedAt := p.submittedAt
      rating := 0
      completedJobs := 0 }
  ({ s with
      serviceProviders := s.serviceProviders ++ [newProvider]
      currentProviderId := id + 1 },
    newProvider)

/-- A `Partial<ServiceProvider>` patch: `none` means the key is absent from
the update object, `some v` means the key is present with value `v`. -/
structure ServiceProviderPatch where
  categoryId : Option Nat := none
  hourlyRate : Option Rat := none
  bio : Option (Option String) := none
  yearsOfExperience : Option (Option Nat) := none
  availability : Option (Option String) := none
  idVerificationImage : Option (Option String) := none
  isVerified : Option Bool := none
  approvalStatus : Option String := none
  adminNotes : Option (Option String) := none
  reviewedBy : Option (Option Nat) := none
  reviewedAt : Option (Option Nat) := none
  rating : Option Rat := none
deriving Repr

/-- The object spread `{ ...provider, ...providerData }`: every key present
in the patch overwrites the corresponding field. -/
def applyProviderPatch (p : ServiceProvider) (d : ServiceProviderPatch) : ServiceProvider :=
  { p with
      categoryId := d.categoryId.getD p.categoryId
      hourlyRate := d.hourlyRate.getD p.hourlyRate
      bio := d.bio.getD p.bio
      yearsOfExperience := d.yearsOfExperience.getD p.yearsOfExperience
      availability := d.availability.getD p.availability
      idVerificationImage := d.idVerificationImage.getD p.idVerificationImage
      isVerified := d.isVerified.getD p.isVerified
      approvalStatus := d.approvalStatus.getD p.approvalStatus
      adminNotes := d.adminNotes.getD p.adminNotes
      reviewedBy := d.reviewedBy.getD p.reviewedBy
      reviewedAt := d.reviewedAt.getD p.reviewedAt
      rating := d.rating.getD p.rating }

/-- Method `IStorage.updateServiceProvider`: look the provider up, merge the patch
over it, store the merged record back under the same key and return it;
`undefined` when the id is unknown. -/
def updateServiceProvider (s : Storage) (id : Nat) (d : ServiceProviderPatch) :
    Storage × Option ServiceProvider :=
  match s.serviceProviders.find? (fun q => q.id == id) with
  | none => (s, none)
  | some p =>
      let updated := applyProviderPatch p d
      ({ s with serviceProviders := setById (fun q => q.id) s.serviceProviders id updated },
        some updated)

/-- The payload the POST /api/reviews route passes to `storage.createReview`
(the insert type of the review table). -/
structure InsertReview where
  serviceRequestId : Nat
  clientId : Nat
  providerId : Nat
  rating : Rat
  comment : Option String
deriving Repr, DecidableEq

/-- Rounding `parseFloat(x.toFixed(1))`: rounding to one decimal place (half away
from zero on the positive ratings at hand). -/
def roundTo1 (q : Rat) : Rat :=
  (round (q * 10) : ℤ) / 10

/-- Method `MemStorage.createReview`: store the new review, then recompute the
provider rating. Note the order faithfully follows the source: the review is
inserted into the map first, so the subsequent `getReviewsByProvider` already
contains it, and the source nevertheless adds `review.rating` once more and
divides by `providerReviews.length + 1`. -/
def MemStorage.createReview (s : Storage) (r : InsertReview) (now : Nat) :
    Storage × Review :=
  let id := s.currentReviewId
  let newReview : Review :=
    { id := id
      serviceRequestId := r.serviceRequestId
      clientId := r.clientId
      providerId := r.providerId
      rating := r.rating
      comment := r.comment
      createdAt := now }
  let s1 : Storage :=
    { s with
        reviews := setById (fun v => v.id) s.reviews id newReview
        currentReviewId := id + 1 }
  let providerReviews := getReviewsByProvider s1 r.providerId
  match getServiceProvider s1 r.providerId with
  | some provider =>
      let totalRating := providerReviews.foldl (fun acc v => acc + v.rating) 0 + r.rating
      let newRating := totalRating / ((providerReviews.length : Rat) + 1)
      let s2 := (updateServiceProvider s1 provider.id { rating := some (roundTo1 newRating) }).1
      (s2, newReview)
  | none => (s1, newReview)

/-- Method `DatabaseStorage.createReview`: insert the review row, then recompute the
provider rating the same way; the SELECT after the INSERT likewise already
returns the new row, and the new rating is added once more on top. -/
def DatabaseStorage.createReview (s : Storage) (r : InsertReview) (now : Nat) :
    Storage × Review :=
  let id := s.currentReviewId
  let newReview : Review :=
    { id := id
      serviceRequestId := r.serviceRequestId
      clientId := r.clientId
      providerId := r.providerId
      rating := r.rating
      comment := r.comment
      createdAt := now }
  let s1 : Storage :=
    { s with
        reviews := s.reviews ++ [newReview]
        currentReviewId := id + 1 }
  let providerReviews := getReviewsByProvider s1 r.providerId
  match getServiceProvider s1 r.providerId with
  | some provider =>
      let totalRating := providerReviews.foldl (fun acc v => acc + v.rating) 0 + r.rating
      let newRating := totalRating / ((providerReviews.length : Rat) + 1)
      let s2 := (updateServiceProvider s1 provider.id { rating := some (roundTo1 newRating) }).1
      (s2, newReview)
  | none => (s1, newReview)

/-- The arithmetic mean of a list of ratings (the quantity the specification
says the stored provider rating should equal, up to rounding). -/
def ratingMean (l : List Rat) : Rat :=
  l.foldl (fun acc v => acc + v) 0 / (l.length : Rat)

/-- An email handed to the SMTP transport, reduced to the fields the
templates of src/server/email-service.ts interpolate. -/
inductive Email where
  | providerApplication (adminEmail : String) (providerName : String) (providerEmail : String)
      (category : String) (hourlyRate : Rat)
  | approvalOutcome (approved : Bool) (adminNotes : Option String)
      (providerName : String) (providerEmail : String)
  | verification (email : String) (token : String)
deriving Repr, DecidableEq

/-- The data object of `EmailService.sendProviderApplicationNotification`. -/
structure ProviderApprovalData where
  providerName : String
  providerEmail : String
  category : String
  hourlyRate : Rat
  bio : String
  yearsOfExperience : Nat
  availability : String
  submittedAt : Nat
deriving Repr, DecidableEq

/-- The data object of `EmailService.sendApprovalNotification`. -/
structure ApprovalResult where
  approved : Bool
  adminNotes : Option String
  providerName : String
  providerEmail : String
deriving Repr, DecidableEq

/-- The mail built by `EmailService.sendProviderApplicationNotification`. -/
def buildApplicationEmail (adminEmail : String) (d : ProviderApprovalData) : Email :=
  Email.providerApplication adminEmail d.providerName d.providerEmail d.category d.hourlyRate

/-- The mail built by `EmailService.sendApprovalNotification`. -/
def buildApprovalEmail (r : ApprovalResult) : Email :=
  Email.approvalOutcome r.approved r.adminNotes r.providerName r.providerEmail

/-- Method `EmailService.sendProviderApplicationNotification`: hand the mail to the
transport; a rejected send is caught and logged, so the call always
resolves. -/
def EmailService.sendProviderApplicationNotification
    (transport : Email → Except String Unit)
    (adminEmail : String) (d : ProviderApprovalData) : Except String Unit :=
  match transport (buildApplicationEmail adminEmail d) with
  | Except.ok _ => Except.ok ()
  | Except.error _ => Except.ok ()

/-- Method `EmailService.sendApprovalNotification`: hand the mail to the transport;
a rejected send is caught and logged, so the call always resolves. -/
def EmailService.sendApprovalNotification
    (transport : Email → Except String Unit)
    (r : ApprovalResult) : Except String Unit :=
  match transport (buildApprovalEmail r) with
  | Except.ok _ => Except.ok ()
  | Except.error _ => Except.ok ()

/-- Method `EmailService.sendVerificationEmail`: hand the mail to the transport; a
rejected send is caught and logged, so the call always resolves. -/
def EmailService.sendVerificationEmail
    (transport : Email → Except String Unit)
    (email : String) (token : String) : Except String Unit :=
  match transport (Email.verification email token) with
  | Except.ok _ => Except.ok ()
  | Except.error _ => Except.ok ()

/-- An HTTP JSON response: either a success payload or an error body with a
message, each with its status code. -/
inductive ApiResponse (α : Type) where
  | ok (status : Nat) (value : α)
  | err (status : Nat) (message : String)
deriving Repr, DecidableEq

/-- The status code of a response. -/
def ApiResponse.statusCode {α : Type} : ApiResponse α → Nat
  | ApiResponse.ok s _ => s
  | ApiResponse.err s _ => s

/-- Whether the response is a success response. -/
def ApiResponse.isOk {α : Type} : ApiResponse α → Bool
  | ApiResponse.ok _ _ => true
  | ApiResponse.err _ _ => false

/-- The success payload of a response, when there is one. -/
def ApiResponse.payload? {α : Type} : ApiResponse α → Option α
  | ApiResponse.ok _ v => some v
  | ApiResponse.err _ _ => none

/-- The body accepted by POST /api/providers and PUT /api/providers/:id
after `providerSchema.parse` (zod): `categoryId` and `hourlyRate` are
numbers with minimum 1, the rest optional. -/
structure CreateProviderBody where
  categoryId : Nat
  hourlyRate : Rat
  bio : Option String
  yearsOfExperience : Option Nat
  availability : Option String
  idVerificationImage : Option String
deriving Repr, DecidableEq

/-- The zod checks of `providerSchema`: `categoryId` at least 1 and
`hourlyRate` at least 1; a failure raises a ZodError answered with 400. -/
def providerSchemaValid (b : CreateProviderBody) : Bool :=
  (1 ≤ b.categoryId) && (1 ≤ b.hourlyRate)

/-- The POST /api/providers route handler (src/server/db.ts). The storage
implementation is passed in as `impl` (MemStorage.createServiceProvider or
DatabaseStorage.createServiceProvider); `caller` is `req.user` when
`req.isAuthenticated()`. Returns the new state, the response, and the mails
handed to the transport. -/
def createProviderRoute
    (impl : Storage → InsertServiceProvider → Storage × ServiceProvider)
    (transport : Email → Except String Unit)
    (s : Storage) (caller : Option User) (body : CreateProviderBody) (now : Nat) :
    Storage × ApiResponse ServiceProvider × List Email :=
  match caller with
  | none => (s, ApiResponse.err 401 "You must be logged in to create a provider profile", [])
  | some user =>
    if !providerSchemaValid body then
      (s, ApiResponse.err 400 "Validation error", [])
    else if (getServiceProviderByUserId s user.id).isSome then
      (s, ApiResponse.err 400 "Provider profile already exists", [])
    else
      let approvalStatus := if isTruthyStr body.idVerificationImage then "pending" else "approved"
      let isVerified := !isTruthyStr body.idVerificationImage
      let (s1, provider) := impl s
        { userId := user.id
          categoryId := body.categoryId
          hourlyRate := body.hourlyRate
          bio := body.bio
          yearsOfExperience := body.yearsOfExperience
          availability := body.availability
          idVerificationImage := body.idVerificationImage
          isVerified := isVerified
          approvalStatus := approvalStatus
          submittedAt := some now }
      if provider.approvalStatus == "pending" then
        match getUser s1 provider.userId, getServiceCategory s1 provider.categoryId with
        | some u, some category =>
          match getUserByEmail s1 "findmyhelper2025@gmail.com" with
          | some adminUser =>
            let d : ProviderApprovalData :=
              { providerName := u.firstName ++ " " ++ u.lastName
                providerEmail := u.email
                category := category.name
                hourlyRate := provider.hourlyRate
                bio := provider.bio.getD ""
                yearsOfExperience := provider.yearsOfExperience.getD 0
                availability := provider.availability.getD ""
                submittedAt := provider.submittedAt.getD now }
            match EmailService.sendProviderApplicationNotification transport adminUser.email d with
            | Except.ok _ =>
                (s1, ApiResponse.ok 201 provider, [buildApplicationEmail adminUser.email d])
            | Except.error _ =>
                (s1, ApiResponse.ok 201 provider, [buildApplicationEmail adminUser.email d])
          | none => (s1, ApiResponse.ok 201 provider, [])
        | _, _ => (s1, ApiResponse.ok 201 provider, [])
      else
        (s1, ApiResponse.ok 201 provider, [])

/-- The PUT /api/providers/:id route handler: owner-only profile update via
`providerSchema`, which has no `approvalStatus` field. -/
def updateProviderRoute (s : Storage) (caller : Option User) (providerId : Nat)
    (body : CreateProviderBody) : Storage × ApiResponse ServiceProvider :=
  match caller with
  | none => (s, ApiResponse.err 401 "You must be logged in to update your provider profile")
  | some user =>
    match getServiceProvider s providerId with
    | none => (s, ApiResponse.err 404 "Provider profile not found")
    | some provider =>
      if provider.userId != user.id then
        (s, ApiResponse.err 403 "You can only update your own provider profile")
      else if !providerSchemaValid body then
        (s, ApiResponse.err 400 "Validation error")
      else
        let (s1, updated?) := updateServiceProvider s providerId
          { categoryId := some body.categoryId
            hourlyRate := some body.hourlyRate
            bio := body.bio.map some
            yearsOfExperience := body.yearsOfExperience.map some
            availability := body.availability.map some
            idVerificationImage := body.idVerificationImage.map some }
        match updated? with
        | none => (s1, ApiResponse.err 404 "Provider profile not found")
        | some updated => (s1, ApiResponse.ok 200 updated)

/-- The POST /api/admin/providers/:id/approve route handler. `adminNotes` is
the destructured request-body field (`none` when absent). The response
payload is the record returned by `updateServiceProvider` (optional, exactly
as the source serialises it without a null check). -/
def approveProviderRoute (transport : Email → Except String Unit)
    (s : Storage) (caller : Option User) (providerId : Nat)
    (adminNotes : Option String) (now : Nat) :
    Storage × ApiResponse (Option ServiceProvider) × List Email :=
  match caller with
  | none => (s, ApiResponse.err 401 "You must be logged in", [])
  | some user =>
    if !user.isAdmin then
      (s, ApiResponse.err 403 "Admin access required", [])
    else
      match getServiceProvider s providerId with
      | none => (s, ApiResponse.err 404 "Provider not found", [])
      | some provider =>
        if provider.approvalStatus != "pending" then
          (s, ApiResponse.err 400 "Provider is not pending approval", [])
        else
          let (s1, updated?) := updateServiceProvider s providerId
            { approvalStatus := some "approved"
              isVerified := some true
              adminNotes := some (orNullStr adminNotes)
              reviewedAt := some (some now)
              reviewedBy := some (some user.id) }
          match getUser s1 provider.userId with
          | some u =>
            let r : ApprovalResult :=
              { approved := true
                adminNotes := adminNotes
                providerName := u.firstName ++ " " ++ u.lastName
                providerEmail := u.email }
            match EmailService.sendApprovalNotification transport r with
            | Except.ok _ => (s1, ApiResponse.ok 200 updated?, [buildApprovalEmail r])
            | Except.error _ => (s1, ApiResponse.ok 200 updated?, [buildApprovalEmail r])
          | none => (s1, ApiResponse.ok 200 updated?, [])

/-- The user projection the provider listing endpoints embed into each
returned record. -/
structure PublicUser where
  id : Nat
  firstName : String
  lastName : String
  profilePicture : Option String
  username : String
deriving Repr, DecidableEq

/-- A provider entry as shaped by GET /api/providers and
GET /api/providers/category/:categoryId. -/
structure ProviderWithDetails where
  provider : ServiceProvider
  user : PublicUser
  category : ServiceCategory
deriving Repr, DecidableEq

/-- The projection to the fields the listing endpoints expose. -/
def User.publicView (u : User) : PublicUser :=
  { id := u.id
    firstName := u.firstName
    lastName := u.lastName
    profilePicture := u.profilePicture
    username := u.username }

/-- Attach user and category details to an approved provider; providers whose
user or category is missing map to `none` and are filtered out, exactly as
the source drops the null results of `Promise.all`. -/
def providerDetails (s : Storage) (p : ServiceProvider) : Option ProviderWithDetails :=
  match getUser s p.userId, getServiceCategory s p.categoryId with
  | some u, some c => some { provider := p, user := u.publicView, category := c }
  | _, _ => none

/-- The GET /api/providers route handler: list all providers, keep only those
with `approvalStatus === "approved"`, attach details, drop the nulls. -/
def getProvidersRoute (s : Storage) : List ProviderWithDetails :=
  ((getServiceProviders s).filter
      (fun p => p.approvalStatus == "approved")).filterMap (providerDetails s)

/-- The GET /api/providers/category/:categoryId route handler. -/
def getProvidersByCategoryRoute (s : Storage) (categoryId : Nat) : List ProviderWithDetails :=
  ((getServiceProvidersByCategory s categoryId).filter
      (fun p => p.approvalStatus == "approved")).filterMap (providerDetails s)

/-- The record returned by `IStorage.getServiceProviderWithUser`: the
provider together with its full user record and category. -/
structure ProviderWithUser where
  provider : ServiceProvider
  user : User
  category : ServiceCategory
deriving Repr, DecidableEq

/-- Method `IStorage.getServiceProviderWithUser`. -/
def getServiceProviderWithUser (s : Storage) (id : Nat) : Option ProviderWithUser :=
  match getServiceProvider s id with
  | none => none
  | some p =>
    match getUser s p.userId, getServiceCategory s p.categoryId with
    | some u, some c => some { provider := p, user := u, category := c }
    | _, _ => none

/-- The client projection attached to each review by the provider detail
endpoint. -/
structure ReviewClient where
  id : Nat
  firstName : String
  lastName : String
  profilePicture : Option String
deriving Repr, DecidableEq

/-- The payload of GET /api/providers/:id. -/
structure ProviderDetailPayload where
  providerWithUser : ProviderWithUser
  reviews : List (Review × Option ReviewClient)
deriving Repr, DecidableEq

/-- The GET /api/providers/:id route handler: 404 when the provider is
unknown, 404 again when its `approvalStatus` is not "approved", otherwise the
provider with its reviews (each review enhanced with its client when that
user exists). -/
def getProviderByIdRoute (s : Storage) (providerId : Nat) :
    ApiResponse ProviderDetailPayload :=
  match getServiceProviderWithUser s providerId with
  | none => ApiResponse.err 404 "Provider not found"
  | some d =>
    if d.provider.approvalStatus != "approved" then
      ApiResponse.err 404 "Provider not found"
    else
      let reviews := getReviewsByProvider s providerId
      let rws := reviews.map (fun r =>
        (r, (getUser s r.clientId).map (fun c =>
          ({ id := c.id, firstName := c.firstName, lastName := c.lastName,
             profilePicture := c.profilePicture } : ReviewClient))))
      ApiResponse.ok 200 { providerWithUser := d, reviews := rws }

/-- The body of POST /api/reviews as the route reads it before validation. -/
structure ReviewBody where
  serviceRequestId : Nat
  rating : Rat
  comment : Option String
deriving Repr, DecidableEq

/-- The POST /api/reviews route handler: the named service request must
exist, belong to the caller, and be completed, in that order, before the
review is stored (which recomputes the provider rating). -/
def createReviewRoute (s : Storage) (caller : Option User) (body : ReviewBody)
    (now : Nat) : Storage × ApiResponse Review :=
  match caller with
  | none => (s, ApiResponse.err 401 "You must be logged in to create a review")
  | some user =>
    match getServiceRequest s body.serviceRequestId with
    | none => (s, ApiResponse.err 404 "Service request not found")
    | some request =>
      if request.clientId != user.id then
        (s, ApiResponse.err 403 "You can only review your own service requests")
      else if request.status != "completed" then
        (s, ApiResponse.err 400 "You can only review completed service requests")
      else
        let (s1, review) := MemStorage.createReview s
          { serviceRequestId := body.serviceRequestId
            clientId := user.id
            providerId := request.providerId
            rating := body.rating
            comment := body.comment } now
        (s1, ApiResponse.ok 201 review)

/-- The outcome of `passport.authenticate("local", ...)`: the LocalStrategy
of src/server/auth.ts. Password comparison (`comparePasswords`, a scrypt
derivation plus constant-time compare) is an external crypto primitive and is
passed in as `cmp supplied stored`. A user found by email whose password
matches is still refused when it has no (truthy) firebaseUid and an
unverified email. -/
def localStrategy (cmp : String → String → Bool) (s : Storage)
    (email : String) (password : String) : Except String User :=
  match getUserByEmail s email with
  | none => Except.error "Invalid email or password"
  | some user =>
    if !cmp password user.password then
      Except.error "Invalid email or password"
    else if !isTruthyStr user.firebaseUid && !user.isEmailVerified then
      Except.error "Please verify your email before logging in."
    else
      Except.ok user

/-- The POST /api/login route handler: run the LocalStrategy; on failure
answer 401 with the strategy message; on success re-check email verification
for non-Firebase users (403) and otherwise establish the session
(`req.login`) and answer 200. The second component is the session user id. -/
def loginRoute (cmp : String → String → Bool) (s : Storage)
    (email : String) (password : String) : ApiResponse User × Option Nat :=
  match localStrategy cmp s email password with
  | Except.error msg => (ApiResponse.err 401 msg, none)
  | Except.ok user =>
    if !isTruthyStr user.firebaseUid && !user.isEmailVerified then
      (ApiResponse.err 403 "Please verify your email before logging in.", none)
    else
      (ApiResponse.ok 200 user, some user.id)

/-- The (id, approvalStatus) projection of the provider table, the quantity
the admin-only transition claims track. -/
def providerStatuses (s : Storage) : List (Nat × String) :=
  s.serviceProviders.map (fun p => (p.id, p.approvalStatus))

/-! ### Concrete fixtures used by counterexamples and witnesses -/

/-- A transport whose sends all succeed. -/
def okTransport : Email → Except String Unit := fun _ => Except.ok ()

/-- A transport whose sends all fail (the SMTP relay rejects every mail). -/
def failTransport : Email → Except String Unit := fun _ => Except.error "smtp down"

/-- Fixture user builder. -/
def mkUser (id : Nat) (email : String) (isAdmin : Bool) (isEmailVerified : Bool)
    (firebaseUid : Option String) : User :=
  { id := id
    username := "user" ++ toString id
    email := email
    password := "stored-hash"
    firstName := "First"
    lastName := "Last"
    isServiceProvider := false
    isAdmin := isAdmin
    profilePicture := none
    phoneNumber := none
    isEmailVerified := isEmailVerified
    emailVerificationToken := none
    firebaseUid := firebaseUid
    createdAt := 0 }

/-- Fixture admin (id 1). -/
def wAdmin : User := mkUser 1 "admin@example.com" true true none

/-- Fixture provider owner (id 2). -/
def wOwner : User := mkUser 2 "owner@example.com" false true none

/-- Fixture client (id 3). -/
def wClient : User := mkUser 3 "client@example.com" false true none

/-- Fixture unverified local-credentials user (id 4). -/
def wUnverified : User := mkUser 4 "unverified@example.com" false false none

/-- Fixture Firebase-backed user with an unverified local flag (id 5). -/
def wFirebase : User := mkUser 5 "firebase@example.com" false false (some "fb-uid-5")

/-- Fixture category. -/
def wCategory : ServiceCategory :=
  { id := 1, name := "Home Cleaning", description := none, icon := none }

/-- Fixture provider builder. -/
def mkProvider (id : Nat) (userId : Nat) (approvalStatus : String) : ServiceProvider :=
  { id := id
    userId := userId
    categoryId := 1
    hourlyRate := 25
    bio := none
    yearsOfExperience := none
    availability := none
    idVerificationImage := none
    isVerified := false
    approvalStatus := approvalStatus
    adminNotes := none
    reviewedBy := none
    reviewedAt := none
    submittedAt := some 0
    rating := 0
    completedJobs := 0 }

/-- Fixture pending provider (id 1, owned by wOwner). -/
def wPending : ServiceProvider := mkProvider 1 2 "pending"

/-- Fixture approved provider (id 2, owned by wOwner). -/
def wApproved : ServiceProvider := mkProvider 2 2 "approved"

/-- Fixture completed service request (id 1, wClient with provider 1). -/
def wRequestCompleted : ServiceRequest :=
  { id := 1, clientId := 3, providerId := 1, taskId := none,
    status := "completed", message := none, createdAt := 0 }

/-- Fixture pending service request (id 2, wClient with provider 1). -/
def wRequestPending : ServiceRequest :=
  { id := 2, clientId := 3, providerId := 1, taskId := none,
    status := "pending", message := none, createdAt := 0 }

/-- Fixture storage state. -/
def wState : Storage :=
  { users := [wAdmin, wOwner, wClient, wUnverified, wFirebase]
    serviceCategories := [wCategory]
    serviceProviders := [wPending, wApproved]
    serviceRequests := [wRequestCompleted, wRequestPending]
    reviews := []
    currentUserId := 6
    currentProviderId := 3
    currentRequestId := 3
    currentReviewId := 1 }

/-- Fixture provider-creation body without an id-verification image. -/
def wBodyNoImage : CreateProviderBody :=
  { categoryId := 1, hourlyRate := 30, bio := none, yearsOfExperience := none,
    availability := none, idVerificationImage := none }

/-- Fixture review bodies for the rating computation. -/
def wReview5 : InsertReview :=
  { serviceRequestId := 1, clientId := 3, providerId := 2, rating := 5, comment := none }

/-- Second fixture review (rating 3, same provider). -/
def wReview3 : InsertReview :=
  { serviceRequestId := 1, clientId := 3, providerId := 2, rating := 3, comment := none }

/-- Fixture review body naming the pending (not completed) service request. -/
def wReviewBodyPending : ReviewBody :=
  { serviceRequestId := 2, rating := 5, comment := none }

/-- Fixture review body naming the completed service request. -/
def wReviewBodyCompleted : ReviewBody :=
  { serviceRequestId := 1, rating := 5, comment := none }

/-- Fixture provider for the rating computation (no other records needed). -/
def c2Provider : ServiceProvider := mkProvider 1 2 "approved"

/-- Fixture state holding only `c2Provider`. -/
def c2State : Storage :=
  { users := [], serviceCategories := [], serviceProviders := [c2Provider],
    serviceRequests := [], reviews := [], currentUserId := 1,
    currentProviderId := 2, currentRequestId := 1, currentReviewId := 1 }

/-- First fixture review insert: rating 5. -/
def c2Review5 : InsertReview :=
  { serviceRequestId := 1, clientId := 3, providerId := 1, rating := 5, comment := none }

/-- Second fixture review insert: rating 3. -/
def c2Review3 : InsertReview :=
  { serviceRequestId := 2, clientId := 3, providerId := 1, rating := 3, comment := none }

/-! ### Helper lemmas about the JavaScript map embedding -/

/-- Looking an entry up right after `Map.set` returns exactly the stored
record. -/
theorem find?_setById {α : Type} (key : α → Nat) (l : List α) (id : Nat) (a : α)
    (h : key a = id) :
    (setById key l id a).find? (fun x => key x == id) = some a := by
  induction l with
  | nil =>
    simp only [setById, List.any_nil, Bool.false_eq_true, if_false, List.nil_append]
    exact List.find?_cons_of_pos _ (by simp [h])
  | cons x xs ih =>
    by_cases hx : (key x == id) = true
    · have hany : ((x :: xs).any fun y => key y == id) = true := by
        simp [List.any_cons, hx]
      simp only [setById, hany, if_true, List.map_cons, hx]
      exact List.find?_cons_of_pos _ (by simp [h])
    · have hx' : (key x == id) = false := by simpa using hx
      by_cases hany : (xs.any fun y => key y == id) = true
      · have hcons : ((x :: xs).any fun y => key y == id) = true := by
          simp [List.any_cons, hany]
        simp only [setById, hcons, if_true, List.map_cons, hx', if_false]
        rw [List.find?_cons_of_neg _ (by simp [hx'])]
        have h2 := ih
        simp only [setById, hany, if_true] at h2
        exact h2
      · have hany' : (xs.any fun y => key y == id) = false := by simpa using hany
        have hcons : ((x :: xs).any fun y => key y == id) = false := by
          simp [List.any_cons, hx', hany']
        simp only [setById, hcons, Bool.false_eq_true, if_false, List.cons_append]
        rw [List.find?_cons_of_neg _ (by simp [hx'])]
        have h2 := ih
        simp only [setById, hany', Bool.false_eq_true, if_false] at h2
        exact h2

/-- Applying `Map.set` of a record that agrees with every stored record of the same
key on a projection leaves that projection of the map unchanged. -/
theorem map_setById_of {α β : Type} (key : α → Nat) (f : α → β) (l : List α)
    (id : Nat) (a : α)
    (hany : l.any (fun x => key x == id) = true)
    (hall : ∀ x ∈ l, (key x == id) = true → f x = f a) :
    (setById key l id a).map f = l.map f := by
  simp only [setById, hany, if_true]
  rw [List.map_map]
  refine List.map_congr_left (fun x hx => ?_)
  by_cases hk : (key x == id) = true
  · simp [Function.comp, hk, hall x hx hk]
  · simp [Function.comp, hk]

/-- Finding a freshly appended record whose key clashes with nothing already
stored returns exactly that record. -/
theorem find?_append_singleton {α : Type} (key : α → Nat) (l : List α) (id : Nat) (a : α)
    (hk : key a = id) (h : ∀ x ∈ l, key x ≠ id) :
    (l ++ [a]).find? (fun x => key x == id) = some a := by
  rw [List.find?_append]
  have h1 : l.find? (fun x => key x == id) = none :=
    List.find?_eq_none.mpr (fun x hx => by simp [h x hx])
  rw [h1]
  simp [List.find?, hk]

/-- Updating via `updateServiceProvider` only touches the provider table. -/
theorem updateServiceProvider_users (s : Storage) (id : Nat) (d : ServiceProviderPatch) :
    ((updateServiceProvider s id d).1).users = s.users := by
  unfold updateServiceProvider
  cases s.serviceProviders.find? (fun q => q.id == id) <;> rfl

/-- Lookup `getUser` is unaffected by a provider update. -/
theorem getUser_updateServiceProvider (s : Storage) (id : Nat)
    (d : ServiceProviderPatch) (uid : Nat) :
    getUser ((updateServiceProvider s id d).1) uid = getUser s uid := by
  unfold getUser
  rw [updateServiceProvider_users]

/-- Send `EmailService.sendApprovalNotification` always resolves: a transport
failure is caught inside the service. -/
theorem sendApprovalNotification_ok (t : Email → Except String Unit) (r : ApprovalResult) :
    EmailService.sendApprovalNotification t r = Except.ok () := by
  unfold EmailService.sendApprovalNotification
  cases t (buildApprovalEmail r) <;> rfl

/-- Send `EmailService.sendProviderApplicationNotification` always resolves. -/
theorem sendProviderApplicationNotification_ok (t : Email → Except String Unit)
    (adminEmail : String) (d : ProviderApprovalData) :
    EmailService.sendProviderApplicationNotification t adminEmail d = Except.ok () := by
  unfold EmailService.sendProviderApplicationNotification
  cases t (buildApplicationEmail adminEmail d) <;> rfl

/-- Send `EmailService.sendVerificationEmail` always resolves. -/
theorem sendVerificationEmail_ok (t : Email → Except String Unit)
    (email token : String) :
    EmailService.sendVerificationEmail t email token = Except.ok () := by
  unfold EmailService.sendVerificationEmail
  cases t (Email.verification email token) <;> rfl

/-- The POST /api/admin/providers/:id/reject route handler. A falsy
`adminNotes` (absent or empty) is refused up front with 400. -/
def rejectProviderRoute (transport : Email → Except String Unit)
    (s : Storage) (caller : Option User) (providerId : Nat)
    (adminNotes : Option String) (now : Nat) :
    Storage × ApiResponse (Option ServiceProvider) × List Email :=
  match caller with
  | none => (s, ApiResponse.err 401 "You must be logged in", [])
  | some user =>
    if !user.isAdmin then
      (s, ApiResponse.err 403 "Admin access required", [])
    else if !isTruthyStr adminNotes then
      (s, ApiResponse.err 400 "Admin notes are required for rejection", [])
    else
      match getServiceProvider s providerId with
      | none => (s, ApiResponse.err 404 "Provider not found", [])
      | some provider =>
        if provider.approvalStatus != "pending" then
          (s, ApiResponse.err 400 "Provider is not pending approval", [])
        else
          let (s1, updated?) := updateServiceProvider s providerId
            { approvalStatus := some "rejected"
              isVerified := some false
              adminNotes := some adminNotes
              reviewedAt := some (some now)
              reviewedBy := some (some user.id) }
          match getUser s1 provider.userId with
          | some u =>
            let r : ApprovalResult :=
              { approved := false
                adminNotes := adminNotes
                providerName := u.firstName ++ " " ++ u.lastName
                providerEmail := u.email }
            match EmailService.sendApprovalNotification transport r with
            | Except.ok _ => (s1, ApiResponse.ok 200 updated?, [buildApprovalEmail r])
            | Except.error _ => (s1, ApiResponse.ok 200 updated?, [buildApprovalEmail r])
          | none => (s1, ApiResponse.ok 200 updated?, [])

/-- Characterization of the approve route on its success path: an admin
approving a pending provider stores the patched record and attempts the
outcome notification exactly when the provider user exists. -/
theorem approveProviderRoute_pending
    (transport : Email → Except String Unit) (s : Storage) (admin : User)
    (providerId : Nat) (notes : Option String) (now : Nat) (p : ServiceProvider)
    (hadmin : admin.isAdmin = true)
    (hp : getServiceProvider s providerId = some p)
    (hpend : p.approvalStatus = "pending") :
    approveProviderRoute transport s (some admin) providerId notes now
      = ((updateServiceProvider s providerId
            { approvalStatus := some "approved", isVerified := some true,
              adminNotes := some (orNullStr notes), reviewedAt := some (some now),
              reviewedBy := some (some admin.id) }).1,
          ApiResponse.ok 200
            (updateServiceProvider s providerId
              { approvalStatus := some "approved", isVerified := some true,
                adminNotes := some (orNullStr notes), reviewedAt := some (some now),
                reviewedBy := some (some admin.id) }).2,
          (match getUser s p.userId with
            | some u => [buildApprovalEmail
                { approved := true, adminNotes := notes,
                  providerName := u.firstName ++ " " ++ u.lastName,
                  providerEmail := u.email }]
            | none => [])) := by
  have hfind : s.serviceProviders.find? (fun q => q.id == providerId) = some p := hp
  have hpend2 : (p.approvalStatus != "pending") = false := by simp [hpend]
  simp only [approveProviderRoute, hadmin, Bool.not_true, Bool.false_eq_true, if_false,
    getServiceProvider, hfind, hpend2, updateServiceProvider]
  cases hgu : getUser s p.userId with
  | none =>
    have h2 : getUser
        { s with serviceProviders := (setById (fun r => r.id) s.serviceProviders providerId
            (applyProviderPatch p
              { approvalStatus := some "approved", isVerified := some true,
                adminNotes := some (orNullStr notes), reviewedAt := some (some now),
                reviewedBy := some (some admin.id) })) } p.userId = none := hgu
    simp [h2]
  | some u =>
    have h2 : getUser
        { s with serviceProviders := (setById (fun r => r.id) s.serviceProviders providerId
            (applyProviderPatch p
              { approvalStatus := some "approved", isVerified := some true,
                adminNotes := some (orNullStr notes), reviewedAt := some (some now),
                reviewedBy := some (some admin.id) })) } p.userId = some u := hgu
    simp only [h2]
    have hsend := sendApprovalNotification_ok transport
      { approved := true, adminNotes := notes,
        providerName := u.firstName ++ " " ++ u.lastName, providerEmail := u.email }
    simp [hsend]

/-! ## Claims -/

/-- C10: The public provider endpoints (GET /api/providers,
GET /api/providers/category/:categoryId, GET /api/providers/:id) never return
a provider whose approvalStatus is not "approved": both listings filter to
approved providers, and the detail endpoint answers 404 for pending or
rejected providers. -/
theorem public_provider_endpoints_only_expose_approved :
    ∀ (s : Storage) (categoryId providerId : Nat),
      ((getProvidersRoute s).all
          (fun d => d.provider.approvalStatus == "approved") = true) ∧
      ((getProvidersByCategoryRoute s categoryId).all
          (fun d => d.provider.approvalStatus == "approved") = true) ∧
      ((getProviderByIdRoute s providerId).payload?.all
          (fun d => d.providerWithUser.provider.approvalStatus == "approved") = true) := by
  intro s categoryId providerId
  have details : ∀ (p : ServiceProvider) (d : ProviderWithDetails),
      providerDetails s p = some d → d.provider = p := by
    intro p d hpd
    unfold providerDetails at hpd
    split at hpd
    · cases hpd; rfl
    · cases hpd
  refine ⟨?_, ?_, ?_⟩
  · rw [List.all_eq_true]
    intro d hd
    simp only [getProvidersRoute, getServiceProviders] at hd
    rw [List.mem_filterMap] at hd
    obtain ⟨p, hp, hpd⟩ := hd
    rw [List.mem_filter] at hp
    rw [details p d hpd]
    exact hp.2
  · rw [List.all_eq_true]
    intro d hd
    simp only [getProvidersByCategoryRoute, getServiceProvidersByCategory] at hd
    rw [List.mem_filterMap] at hd
    obtain ⟨p, hp, hpd⟩ := hd
    rw [List.mem_filter] at hp
    rw [details p d hpd]
    exact hp.2
  · unfold getProviderByIdRoute
    cases hd : getServiceProviderWithUser s providerId with
    | none => simp [ApiResponse.payload?]
    | some d =>
      by_cases hst : (d.provider.approvalStatus != "approved") = true
      · simp [hst, ApiResponse.payload?]
      · have : (d.provider.approvalStatus == "approved") = true := by
          simpa using hst
        simp [hst, ApiResponse.payload?, this]

/-- C5: An authenticated POST /api/reviews naming a ServiceRequest whose
status is not "completed" is rejected with a client error (403 when the
request belongs to another client, 400 otherwise) and the storage state is
unchanged: no Review is created and the provider rating stays as it was. A
review is only ever stored for a completed request owned by the caller. -/
theorem reviews_require_completed_request (s : Storage) (caller : User)
    (body : ReviewBody) (now : Nat) (req : ServiceRequest)
    (hreq : getServiceRequest s body.serviceRequestId = some req)
    (hstatus : req.status ≠ "completed") :
    (createReviewRoute s (some caller) body now).1 = s ∧
    (createReviewRoute s (some caller) body now).2.isOk = false ∧
    400 ≤ (createReviewRoute s (some caller) body now).2.statusCode ∧
    (createReviewRoute s (some caller) body now).2.statusCode < 500 := by
  unfold createReviewRoute
  rw [hreq]
  by_cases hc : (req.clientId != caller.id) = true
  · simp [hc, ApiResponse.isOk, ApiResponse.statusCode]
  · have hs : (req.status != "completed") = true := by simpa using hstatus
    simp [hc, hs, ApiResponse.isOk, ApiResponse.statusCode]

/-- Witness for C5: the fixture client reviews its own still-pending request
and is refused with a 400 while the state is untouched. -/
theorem reviews_require_completed_request_witness :
    getServiceRequest wState wReviewBodyPending.serviceRequestId = some wRequestPending ∧
    wRequestPending.status ≠ "completed" ∧
    ((createReviewRoute wState (some wClient) wReviewBodyPending 0).1 = wState ∧
      (createReviewRoute wState (some wClient) wReviewBodyPending 0).2.isOk = false ∧
      400 ≤ (createReviewRoute wState (some wClient) wReviewBodyPending 0).2.statusCode ∧
      (createReviewRoute wState (some wClient) wReviewBodyPending 0).2.statusCode < 500) :=
  ⟨by decide, by decide,
    reviews_require_completed_request wState wClient wReviewBodyPending 0 wRequestPending
      (by decide) (by decide)⟩

/-- C3: Once a provider's approvalStatus is "approved" or "rejected", any
further admin approve or reject call on that id fails with the conflict
refusal (HTTP 400, "Provider is not pending approval"; a reject with missing
notes fails even earlier, also with 400) and leaves the storage state, hence
the provider record, unchanged: the status leaves "pending" at most once. -/
theorem terminal_providers_refuse_further_review
    (transport : Email → Except String Unit) (s : Storage) (admin : User)
    (providerId : Nat) (notes : Option String) (now : Nat) (p : ServiceProvider)
    (hadmin : admin.isAdmin = true)
    (hp : getServiceProvider s providerId = some p)
    (hterm : p.approvalStatus = "approved" ∨ p.approvalStatus = "rejected") :
    approveProviderRoute transport s (some admin) providerId notes now
      = (s, ApiResponse.err 400 "Provider is not pending approval", []) ∧
    (rejectProviderRoute transport s (some admin) providerId notes now).1 = s ∧
    (rejectProviderRoute transport s (some admin) providerId notes now).2.1.isOk = false ∧
    (rejectProviderRoute transport s (some admin) providerId notes now).2.1.statusCode = 400 := by
  have hne : (p.approvalStatus != "pending") = true := by
    rcases hterm with h | h <;> simp [h]
  refine ⟨?_, ?_⟩
  · simp [approveProviderRoute, hadmin, hp, hne]
  · by_cases hn : isTruthyStr notes = true
    · simp [rejectProviderRoute, hadmin, hn, hp, hne, ApiResponse.isOk,
        ApiResponse.statusCode]
    · simp [rejectProviderRoute, hadmin, hn, ApiResponse.isOk, ApiResponse.statusCode]

/-- Witness for C3: repeating approval on the already-approved fixture
provider fails with 400 and changes nothing. -/
theorem terminal_providers_refuse_further_review_witness :
    wAdmin.isAdmin = true ∧
    getServiceProvider wState 2 = some wApproved ∧
    (wApproved.approvalStatus = "approved" ∨ wApproved.approvalStatus = "rejected") ∧
    (approveProviderRoute okTransport wState (some wAdmin) 2 (some "again") 0
        = (wState, ApiResponse.err 400 "Provider is not pending approval", []) ∧
      (rejectProviderRoute okTransport wState (some wAdmin) 2 (some "again") 0).1 = wState ∧
      (rejectProviderRoute okTransport wState (some wAdmin) 2 (some "again") 0).2.1.isOk = false ∧
      (rejectProviderRoute okTransport wState (some wAdmin) 2 (some "again") 0).2.1.statusCode = 400) :=
  ⟨by decide, by decide, Or.inl (by decide),
    terminal_providers_refuse_further_review okTransport wState wAdmin 2 (some "again") 0
      wApproved (by decide) (by decide) (Or.inl (by decide))⟩

/-- C4: For an admin acting on a pending provider, a reject request whose
body lacks a non-empty adminNotes field fails with 400 and leaves the state
(hence the provider) unchanged, while an approve request with no adminNotes
succeeds with 200 and transitions the provider to "approved". -/
theorem rejection_requires_notes_approval_does_not
    (transport : Email → Except String Unit) (s : Storage) (admin : User)
    (providerId : Nat) (notes : Option String) (now : Nat) (p : ServiceProvider)
    (hadmin : admin.isAdmin = true)
    (hp : getServiceProvider s providerId = some p)
    (hpend : p.approvalStatus = "pending")
    (hnotes : isTruthyStr notes = false) :
    rejectProviderRoute transport s (some admin) providerId notes now
      = (s, ApiResponse.err 400 "Admin notes are required for rejection", []) ∧
    (∃ q, (approveProviderRoute transport s (some admin) providerId none now).2.1
        = ApiResponse.ok 200 (some q) ∧ q.approvalStatus = "approved") := by
  have hfind : s.serviceProviders.find? (fun q => q.id == providerId) = some p := hp
  constructor
  · simp [rejectProviderRoute, hadmin, hnotes]
  · refine ⟨applyProviderPatch p
      { approvalStatus := some "approved", isVerified := some true,
        adminNotes := some (orNullStr none), reviewedAt := some (some now),
        reviewedBy := some (some admin.id) }, ?_, ?_⟩
    · rw [approveProviderRoute_pending transport s admin providerId none now p hadmin hp hpend]
      simp [updateServiceProvider, hfind]
    · simp [applyProviderPatch]

/-- Witness for C4: on the pending fixture provider, rejecting with an absent
notes field fails with 400, approving with no notes succeeds. -/
theorem rejection_requires_notes_approval_does_not_witness :
    wAdmin.isAdmin = true ∧
    getServiceProvider wState 1 = some wPending ∧
    wPending.approvalStatus = "pending" ∧
    isTruthyStr none = false ∧
    (rejectProviderRoute okTransport wState (some wAdmin) 1 none 0
        = (wState, ApiResponse.err 400 "Admin notes are required for rejection", []) ∧
      (∃ q, (approveProviderRoute okTransport wState (some wAdmin) 1 none 0).2.1
          = ApiResponse.ok 200 (some q) ∧ q.approvalStatus = "approved")) :=
  ⟨by decide, by decide, by decide, by decide,
    rejection_requires_notes_approval_does_not okTransport wState wAdmin 1 none 0 wPending
      (by decide) (by decide) (by decide) (by decide)⟩

/-- C8: A successful admin approval of a pending provider with a non-empty
notes string stores a record with approvalStatus "approved", isVerified
true, adminNotes equal to the supplied notes, reviewedBy the approving
admin's id and reviewedAt the current timestamp, returns it with 200, and
hands exactly one outcome notification for the provider's user to the mail
transport. -/
theorem approval_stamps_metadata_and_notifies_once
    (transport : Email → Except String Unit) (s : Storage) (admin : User)
    (providerId : Nat) (n : String) (now : Nat) (p : ServiceProvider) (u : User)
    (hadmin : admin.isAdmin = true)
    (hp : getServiceProvider s providerId = some p)
    (hpend : p.approvalStatus = "pending")
    (hu : getUser s p.userId = some u)
    (hn : n ≠ "") :
    ∃ q, (approveProviderRoute transport s (some admin) providerId (some n) now).2.1
        = ApiResponse.ok 200 (some q) ∧
      q.approvalStatus = "approved" ∧
      q.isVerified = true ∧
      q.adminNotes = some n ∧
      q.reviewedBy = some admin.id ∧
      q.reviewedAt = some now ∧
      getServiceProvider
        (approveProviderRoute transport s (some admin) providerId (some n) now).1
        providerId = some q ∧
      (approveProviderRoute transport s (some admin) providerId (some n) now).2.2
        = [Email.approvalOutcome true (some n)
            (u.firstName ++ " " ++ u.lastName) u.email] := by
  have hfind : s.serviceProviders.find? (fun q => q.id == providerId) = some p := hp
  have hpid : p.id = providerId := by
    have := List.find?_some hfind
    simpa using this
  have hnote : orNullStr (some n) = some n := by simp [orNullStr, hn]
  refine ⟨applyProviderPatch p
      { approvalStatus := some "approved", isVerified := some true,
        adminNotes := some (orNullStr (some n)), reviewedAt := some (some now),
        reviewedBy := some (some admin.id) }, ?_, ?_, ?_, ?_, ?_, ?_, ?_, ?_⟩
  · rw [approveProviderRoute_pending transport s admin providerId (some n) now p hadmin hp hpend]
    simp [updateServiceProvider, hfind]
  · simp [applyProviderPatch]
  · simp [applyProviderPatch]
  · simp [applyProviderPatch, hnote]
  · simp [applyProviderPatch]
  · simp [applyProviderPatch]
  · rw [approveProviderRoute_pending transport s admin providerId (some n) now p hadmin hp hpend]
    simp only [updateServiceProvider, hfind, getServiceProvider]
    apply find?_setById
    simp [applyProviderPatch, hpid]
  · rw [approveProviderRoute_pending transport s admin providerId (some n) now p hadmin hp hpend]
    simp [hu, buildApprovalEmail]

/-- Witness for C8: the fixture admin approves the pending fixture provider
with notes; the stored record carries the stamps and one outcome mail is
attempted to the owner. -/
theorem approval_stamps_metadata_and_notifies_once_witness :
    wAdmin.isAdmin = true ∧
    getServiceProvider wState 1 = some wPending ∧
    wPending.approvalStatus = "pending" ∧
    getUser wState wPending.userId = some wOwner ∧
    "looks good" ≠ "" ∧
    (∃ q, (approveProviderRoute okTransport wState (some wAdmin) 1 (some "looks good") 7).2.1
        = ApiResponse.ok 200 (some q) ∧
      q.approvalStatus = "approved" ∧
      q.isVerified = true ∧
      q.adminNotes = some "looks good" ∧
      q.reviewedBy = some wAdmin.id ∧
      q.reviewedAt = some 7 ∧
      getServiceProvider
        (approveProviderRoute okTransport wState (some wAdmin) 1 (some "looks good") 7).1
        1 = some q ∧
      (approveProviderRoute okTransport wState (some wAdmin) 1 (some "looks good") 7).2.2
        = [Email.approvalOutcome true (some "looks good")
            (wOwner.firstName ++ " " ++ wOwner.lastName) wOwner.email]) :=
  ⟨by decide, by decide, by decide, by decide, by decide,
    approval_stamps_metadata_and_notifies_once okTransport wState wAdmin 1 "looks good" 7
      wPending wOwner (by decide) (by decide) (by decide) (by decide) (by decide)⟩

/-- C6: approvalStatus transitions only for admin callers: a non-admin caller
gets 403 from both admin endpoints with the state unchanged, and the
owner-facing PUT /api/providers/:id never changes any provider's
approvalStatus (its schema has no such field), so a non-admin request never
transitions a pending provider. The provider map is assumed key-consistent
(distinct stored ids), as JavaScript `Map` keys are. -/
theorem admin_only_provider_transitions
    (transport : Email → Except String Unit) (s : Storage) (caller : User)
    (providerId : Nat) (notes : Option String) (body : CreateProviderBody) (now : Nat)
    (hnotadmin : caller.isAdmin = false)
    (hnodup : (s.serviceProviders.map (fun p => p.id)).Nodup) :
    approveProviderRoute transport s (some caller) providerId notes now
      = (s, ApiResponse.err 403 "Admin access required", []) ∧
    rejectProviderRoute transport s (some caller) providerId notes now
      = (s, ApiResponse.err 403 "Admin access required", []) ∧
    providerStatuses ((updateProviderRoute s (some caller) providerId body).1)
      = providerStatuses s := by
  refine ⟨by simp [approveProviderRoute, hnotadmin],
          by simp [rejectProviderRoute, hnotadmin], ?_⟩
  unfold updateProviderRoute
  cases hf : getServiceProvider s providerId with
  | none => rfl
  | some provider =>
    by_cases hown : (provider.userId != caller.id) = true
    · simp [hown]
    · by_cases hval : (!providerSchemaValid body) = true
      · simp [hown, hval]
      · have hfind : s.serviceProviders.find? (fun q => q.id == providerId) = some provider := hf
        simp only [hown, hval, Bool.false_eq_true, if_false, updateServiceProvider, hfind]
        unfold providerStatuses
        apply map_setById_of
        · refine List.any_eq_true.mpr ⟨provider, List.mem_of_find?_eq_some hfind, ?_⟩
          have hh := List.find?_some hfind
          simpa using hh
        · intro x hx hkx
          have hxp : x = provider := by
            apply List.inj_on_of_nodup_map hnodup hx (List.mem_of_find?_eq_some hfind)
            have h1 : x.id = providerId := by simpa using hkx
            have h2b := List.find?_some hfind
            have h2 : provider.id = providerId := by simpa using h2b
            simp [h1, h2]
          subst hxp
          simp [applyProviderPatch]

/-- Witness for C6: the fixture client (not an admin) is refused by both
admin endpoints and its PUT leaves every approvalStatus unchanged. -/
theorem admin_only_provider_transitions_witness :
    wClient.isAdmin = false ∧
    (wState.serviceProviders.map (fun p => p.id)).Nodup ∧
    (approveProviderRoute okTransport wState (some wClient) 1 (some "x") 0
        = (wState, ApiResponse.err 403 "Admin access required", []) ∧
      rejectProviderRoute okTransport wState (some wClient) 1 (some "x") 0
        = (wState, ApiResponse.err 403 "Admin access required", []) ∧
      providerStatuses ((updateProviderRoute wState (some wClient) 1 wBodyNoImage).1)
        = providerStatuses wState) :=
  ⟨by decide, by decide,
    admin_only_provider_transitions okTransport wState wClient 1 (some "x") wBodyNoImage 0
      (by decide) (by decide)⟩

/-- C7: Local email/password login for a user with no firebaseUid and an
unverified email fails with 401 and issues no session even when the supplied
password is correct (whatever the comparator says); for a user with a
(non-empty) firebaseUid the email-verification check is skipped and a
correct password logs the user in with 200. -/
theorem unverified_local_login_blocked_firebase_skips_check
    (s : Storage) (email password : String) (user : User)
    (hfound : getUserByEmail s email = some user) :
    (user.firebaseUid = none → user.isEmailVerified = false →
      ∀ cmp : String → String → Bool,
        (loginRoute cmp s email password).1.statusCode = 401 ∧
        (loginRoute cmp s email password).2 = none) ∧
    (∀ uid, user.firebaseUid = some uid → uid ≠ "" →
      ∀ cmp : String → String → Bool, cmp password user.password = true →
        loginRoute cmp s email password = (ApiResponse.ok 200 user, some user.id)) := by
  constructor
  · intro hfb hv cmp
    unfold loginRoute localStrategy
    rw [hfound]
    by_cases hcmp : cmp password user.password = true
    · simp [hcmp, hfb, hv, isTruthyStr, ApiResponse.statusCode]
    · simp [hcmp, ApiResponse.statusCode]
  · intro uid hfb hne cmp hcmp
    have htr : isTruthyStr user.firebaseUid = true := by simp [hfb, isTruthyStr, hne]
    unfold loginRoute localStrategy
    rw [hfound]
    simp [hcmp, htr]

/-- Witness for C7: with an equality comparator and the correct stored
password, the unverified fixture user is refused (401, no session) while the
Firebase-backed fixture user logs in. -/
theorem unverified_local_login_blocked_firebase_skips_check_witness :
    getUserByEmail wState "unverified@example.com" = some wUnverified ∧
    getUserByEmail wState "firebase@example.com" = some wFirebase ∧
    ((loginRoute (fun a b => a == b) wState "unverified@example.com" "stored-hash").1.statusCode
        = 401 ∧
      (loginRoute (fun a b => a == b) wState "unverified@example.com" "stored-hash").2 = none) ∧
    loginRoute (fun a b => a == b) wState "firebase@example.com" "stored-hash"
      = (ApiResponse.ok 200 wFirebase, some wFirebase.id) :=
  ⟨by decide, by decide,
    (unverified_local_login_blocked_firebase_skips_check wState "unverified@example.com"
        "stored-hash" wUnverified (by decide)).1 (by decide) (by decide) (fun a b => a == b),
    (unverified_local_login_blocked_firebase_skips_check wState "firebase@example.com"
        "stored-hash" wFirebase (by decide)).2 "fb-uid-5" (by decide) (by decide)
      (fun a b => a == b) (by decide)⟩

/-- Transport independence of the approve route. -/
theorem approve_transport_indep (t t' : Email → Except String Unit) (s : Storage)
    (caller : Option User) (pid : Nat) (notes : Option String) (now : Nat) :
    approveProviderRoute t s caller pid notes now
      = approveProviderRoute t' s caller pid notes now := by
  unfold approveProviderRoute
  cases caller with
  | none => rfl
  | some user =>
    by_cases ha : (!user.isAdmin) = true
    · simp [ha]
    · simp only [ha, Bool.false_eq_true, if_false]
      cases hf : getServiceProvider s pid with
      | none => rfl
      | some provider =>
        by_cases hst : (provider.approvalStatus != "pending") = true
        · simp [hst]
        · simp only [hst, Bool.false_eq_true, if_false]
          rcases hupd : updateServiceProvider s pid
            { approvalStatus := some "approved", isVerified := some true,
              adminNotes := some (orNullStr notes), reviewedAt := some (some now),
              reviewedBy := some (some user.id) } with ⟨s1, upd⟩
          simp only [hupd]
          cases hgu : getUser s1 provider.userId with
          | none => rfl
          | some u => simp [hgu, sendApprovalNotification_ok]

/-- Transport independence of the reject route. -/
theorem reject_transport_indep (t t' : Email → Except String Unit) (s : Storage)
    (caller : Option User) (pid : Nat) (notes : Option String) (now : Nat) :
    rejectProviderRoute t s caller pid notes now
      = rejectProviderRoute t' s caller pid notes now := by
  unfold rejectProviderRoute
  cases caller with
  | none => rfl
  | some user =>
    by_cases ha : (!user.isAdmin) = true
    · simp [ha]
    · by_cases hn : (!isTruthyStr notes) = true
      · simp [ha, hn]
      · simp only [ha, hn, Bool.false_eq_true, if_false]
        cases hf : getServiceProvider s pid with
        | none => rfl
        | some provider =>
          by_cases hst : (provider.approvalStatus != "pending") = true
          · simp [hst]
          · simp only [hst, Bool.false_eq_true, if_false]
            rcases hupd : updateServiceProvider s pid
              { approvalStatus := some "rejected", isVerified := some false,
                adminNotes := some notes, reviewedAt := some (some now),
                reviewedBy := some (some user.id) } with ⟨s1, upd⟩
            simp only [hupd]
            cases hgu : getUser s1 provider.userId with
            | none => rfl
            | some u => simp [hgu, sendApprovalNotification_ok]

/-- Transport independence of the provider-creation route. -/
theorem create_transport_indep (impl : Storage → InsertServiceProvider → Storage × ServiceProvider)
    (t t' : Email → Except String Unit) (s : Storage)
    (caller : Option User) (body : CreateProviderBody) (now : Nat) :
    createProviderRoute impl t s caller body now
      = createProviderRoute impl t' s caller body now := by
  unfold createProviderRoute
  cases caller with
  | none => rfl
  | some user =>
    by_cases hv : (!providerSchemaValid body) = true
    · simp [hv]
    · by_cases hex : (getServiceProviderByUserId s user.id).isSome = true
      · simp [hv, hex]
      · simp only [hv, hex, Bool.false_eq_true, if_false]
        rcases himpl : impl s
          { userId := user.id, categoryId := body.categoryId,
            hourlyRate := body.hourlyRate, bio := body.bio,
            yearsOfExperience := body.yearsOfExperience,
            availability := body.availability,
            idVerificationImage := body.idVerificationImage,
            isVerified := !isTruthyStr body.idVerificationImage,
            approvalStatus := if isTruthyStr body.idVerificationImage then "pending" else "approved",
            submittedAt := some now } with ⟨s1, provider⟩
        simp only [himpl]
        by_cases hpend : (provider.approvalStatus == "pending") = true
        · simp only [hpend, if_true]
          cases hgu : getUser s1 provider.userId with
          | none => simp [hgu]
          | some u =>
            cases hgc : getServiceCategory s1 provider.categoryId with
            | none => simp [hgu, hgc]
            | some category =>
              cases hae : getUserByEmail s1 "findmyhelper2025@gmail.com" with
              | none => simp [hgu, hgc, hae]
              | some adminUser =>
                simp [hgu, hgc, hae, sendProviderApplicationNotification_ok]
        · simp [hpend]

/-- C9: a failing email send never fails the enclosing request: every
EmailService send resolves successfully whatever the transport does (the
rejection is caught inside the service), and the approve, reject and
provider-creation handlers produce identical state, response and attempted
notifications for any two transports, in particular for an always-failing
one versus an always-succeeding one. -/
theorem email_failures_are_swallowed :
    (∀ (t : Email → Except String Unit) (r : ApprovalResult),
        EmailService.sendApprovalNotification t r = Except.ok ()) ∧
    (∀ (t : Email → Except String Unit) (adminEmail : String) (d : ProviderApprovalData),
        EmailService.sendProviderApplicationNotification t adminEmail d = Except.ok ()) ∧
    (∀ (t : Email → Except String Unit) (email token : String),
        EmailService.sendVerificationEmail t email token = Except.ok ()) ∧
    (∀ (t t' : Email → Except String Unit) (s : Storage) (caller : Option User)
        (pid : Nat) (notes : Option String) (now : Nat),
        approveProviderRoute t s caller pid notes now
            = approveProviderRoute t' s caller pid notes now ∧
          rejectProviderRoute t s caller pid notes now
            = rejectProviderRoute t' s caller pid notes now) ∧
    (∀ (impl : Storage → InsertServiceProvider → Storage × ServiceProvider)
        (t t' : Email → Except String Unit) (s : Storage) (caller : Option User)
        (body : CreateProviderBody) (now : Nat),
        createProviderRoute impl t s caller body now
          = createProviderRoute impl t' s caller body now) :=
  ⟨sendApprovalNotification_ok,
    sendProviderApplicationNotification_ok,
    sendVerificationEmail_ok,
    fun t t' s caller pid notes now =>
      ⟨approve_transport_indep t t' s caller pid notes now,
        reject_transport_indep t t' s caller pid notes now⟩,
    create_transport_indep⟩

/-- Counterexample to C1 as stated: a provider created through
POST /api/providers with no idVerificationImage comes back (and is stored)
with approvalStatus "pending", not "approved" - the storage layer overrides
the route's auto-approval - while isVerified is indeed true. -/
theorem providers_without_image_not_auto_approved :
    ((createProviderRoute MemStorage.createServiceProvider okTransport wState
        (some wClient) wBodyNoImage 0).2.1.payload?.map
          (fun p => (p.approvalStatus, p.isVerified))) = some ("pending", true) ∧
    ¬ (((createProviderRoute MemStorage.createServiceProvider okTransport wState
        (some wClient) wBodyNoImage 0).2.1.payload?.map
          (fun p => p.approvalStatus)) = some "approved") := by
  decide

/-- C1 as amended: an authenticated provider creation whose payload has no
idVerificationImage returns 201 with a record whose isVerified is true but
whose approvalStatus is "pending" (both createServiceProvider
implementations force "pending", discarding the "approved" the route
computed), and the stored record agrees. `hfresh` states that the id counter
is ahead of the stored records, as both backends guarantee. -/
theorem providers_without_image_stored_pending_verified
    (impl : Storage → InsertServiceProvider → Storage × ServiceProvider)
    (transport : Email → Except String Unit) (s : Storage) (caller : User)
    (body : CreateProviderBody) (now : Nat)
    (himpl : impl = MemStorage.createServiceProvider ∨ impl = DatabaseStorage.createServiceProvider)
    (hnoimg : body.idVerificationImage = none)
    (hvalid : providerSchemaValid body = true)
    (hnew : getServiceProviderByUserId s caller.id = none)
    (hfresh : ∀ q ∈ s.serviceProviders, q.id ≠ s.currentProviderId) :
    ∃ p, (createProviderRoute impl transport s (some caller) body now).2.1
        = ApiResponse.ok 201 p ∧
      p.approvalStatus = "pending" ∧
      p.isVerified = true ∧
      getServiceProvider (createProviderRoute impl transport s (some caller) body now).1 p.id
        = some p := by
  have htr : isTruthyStr body.idVerificationImage = false := by simp [hnoimg, isTruthyStr]
  have hvalid2 : (!providerSchemaValid body) = false := by simp [hvalid]
  have hnew2 : (getServiceProviderByUserId s caller.id).isSome = false := by simp [hnew]
  rcases himpl with h | h
  · subst h
    simp only [createProviderRoute, hvalid2, hnew2, htr, Bool.false_eq_true, if_false,
      Bool.not_false, MemStorage.createServiceProvider]
    simp only [beq_self_eq_true, if_true]
    split
    · split
      · split
        · refine ⟨_, rfl, rfl, rfl, ?_⟩
          simp only [getServiceProvider]
          apply find?_setById
          rfl
        · refine ⟨_, rfl, rfl, rfl, ?_⟩
          simp only [getServiceProvider]
          apply find?_setById
          rfl
      · refine ⟨_, rfl, rfl, rfl, ?_⟩
        simp only [getServiceProvider]
        apply find?_setById
        rfl
    · refine ⟨_, rfl, rfl, rfl, ?_⟩
      simp only [getServiceProvider]
      apply find?_setById
      rfl
  · subst h
    simp only [createProviderRoute, hvalid2, hnew2, htr, Bool.false_eq_true, if_false,
      Bool.not_false, DatabaseStorage.createServiceProvider]
    simp only [beq_self_eq_true, if_true]
    split
    · split
      · split
        · refine ⟨_, rfl, rfl, rfl, ?_⟩
          simp only [getServiceProvider]
          apply find?_append_singleton
          · rfl
          · intro x hx
            exact hfresh x hx
        · refine ⟨_, rfl, rfl, rfl, ?_⟩
          simp only [getServiceProvider]
          apply find?_append_singleton
          · rfl
          · intro x hx
            exact hfresh x hx
      · refine ⟨_, rfl, rfl, rfl, ?_⟩
        simp only [getServiceProvider]
        apply find?_append_singleton
        · rfl
        · intro x hx
          exact hfresh x hx
    · refine ⟨_, rfl, rfl, rfl, ?_⟩
      simp only [getServiceProvider]
      apply find?_append_singleton
      · rfl
      · intro x hx
        exact hfresh x hx

/-- Witness for the amended C1: the fixture client creates a provider with
no image; the returned and stored record is pending yet verified. -/
theorem providers_without_image_stored_pending_verified_witness :
    wBodyNoImage.idVerificationImage = none ∧
    providerSchemaValid wBodyNoImage = true ∧
    getServiceProviderByUserId wState wClient.id = none ∧
    (∀ q ∈ wState.serviceProviders, q.id ≠ wState.currentProviderId) ∧
    (∃ p, (createProviderRoute MemStorage.createServiceProvider okTransport wState
          (some wClient) wBodyNoImage 0).2.1 = ApiResponse.ok 201 p ∧
      p.approvalStatus = "pending" ∧
      p.isVerified = true ∧
      getServiceProvider
        (createProviderRoute MemStorage.createServiceProvider okTransport wState
          (some wClient) wBodyNoImage 0).1 p.id = some p) :=
  ⟨rfl, by decide, by decide, by decide,
    providers_without_image_stored_pending_verified MemStorage.createServiceProvider
      okTransport wState wClient wBodyNoImage 0 (Or.inl rfl) rfl (by decide) (by decide)
      (by decide)⟩

/-- C2 failing input: after two reviews with ratings 5 and 3, both
createReview implementations store rating 3.7 instead of the rounded mean
4.0. The code inserts the new review first, then re-reads the provider's
reviews (which already contain it) and adds the new rating once more, so the
second call computes (5 + 3 + 3) / 3 = 11/3, rounded to 3.7, where the
specified running mean is (5 + 3) / 2 = 4. -/
theorem createReview_double_counts_latest_rating :
    (((MemStorage.createReview ((MemStorage.createReview c2State c2Review5 0).1)
          c2Review3 0).1.serviceProviders.map (fun p => p.rating)) = [37/10]) ∧
    (((DatabaseStorage.createReview ((DatabaseStorage.createReview c2State c2Review5 0).1)
          c2Review3 0).1.serviceProviders.map (fun p => p.rating)) = [37/10]) ∧
    roundTo1 (ratingMean [5, 3]) = 4 ∧
    (37 : Rat)/10 ≠ 4 := by
  refine ⟨?_, ?_, ?_, by norm_num⟩
  · norm_num [MemStorage.createReview, c2State, c2Review5, c2Review3, c2Provider,
      getReviewsByProvider, getServiceProvider, updateServiceProvider, setById,
      applyProviderPatch, roundTo1, round_eq, mkProvider]
  · norm_num [DatabaseStorage.createReview, c2State, c2Review5, c2Review3, c2Provider,
      getReviewsByProvider, getServiceProvider, updateServiceProvider, setById,
      applyProviderPatch, roundTo1, round_eq, mkProvider]
  · norm_num [roundTo1, ratingMean, round_eq, List.foldl]
